import Mathlib

/-!
# Verification of `frontegg/common/async_identity_mixin.py`

Shallow embedding of the token-identity verification core
(`IdentityAsyncClientMixin`) of the frontegg python SDK, together with
theorems settling the specification claims about it.

Modelling choices:
* Python exceptions are values of an explicit error type `PyErr`;
  a fallible computation returns `Except PyErr α`.
* The remote key endpoint is an oracle `endpoint : Nat → FetchOutcome`
  giving the outcome of the n-th `fetch_public_key` call: either it
  raises some exception, or it returns `data.get('publicKey')`
  (an `Option String`, since the JSON field may be absent).
* The process-wide cache `self.__publicKey` is threaded explicitly as an
  `Option String` (Python `None` is `Option.none`); Python truthiness of
  that slot (`if self.__publicKey:`) is `pyTruthyStr`.
* Side effects we must reason about (network fetches, sleeps, error logs)
  are counted in the returned records.
-/

namespace Frontegg

/-- Python truthiness of `self.__publicKey` / an authorization header:
`None` and the empty string are falsy, any other string is truthy. -/
def pyTruthyStr : Option String → Bool
  | none => false
  | some s => s != ""

/-- Outcome of one call to `fetch_public_key`: the call either raises an
exception (any of: vendor-token refresh failure, network error,
`raise_for_status`, JSON parse), or returns `data.get('publicKey')`. -/
inductive FetchOutcome where
  | raise (msg : String)
  | ok (key : Option String)
deriving DecidableEq, Repr

/-- The HTTP response seen by `fetch_public_key`: whether
`raise_for_status()` passes (2xx), and the value of the `publicKey`
field of the JSON body (`none` when the field is absent). -/
structure HttpResponse where
  statusOk : Bool
  publicKeyField : Option String
deriving DecidableEq, Repr

/-- `fetch_public_key` applied to a response it received:
`response.raise_for_status()` raises on a non-2xx status, otherwise the
function returns `data.get('publicKey')` (possibly `None`). -/
def fetch_public_key (resp : HttpResponse) : FetchOutcome :=
  if resp.statusOk then .ok resp.publicKeyField else .raise "HTTPError"

/-- Result of one run of `get_public_key`:
the value returned to the caller, the cache slot afterwards, and the
number of `fetch_public_key` calls and `asyncio.sleep(1)` calls made. -/
structure KeyResult where
  ret : Option String
  cache : Option String
  fetchCalls : Nat
  sleeps : Nat
deriving DecidableEq, Repr

/-- The `while reties < 10` retry loop of `get_public_key`, entered with
`fuel = 10 - reties` iterations left.  `callIdx` is the index of the next
fetch in the endpoint oracle.  On a successful fetch the cache is
assigned the fetched value (even `None`) and the loop returns it; on an
exception the attempt counter advances after a 1-second sleep; when the
loop exits the function falls through, implicitly returning `None` with
the cache untouched. -/
def getPublicKeyLoop (endpoint : Nat → FetchOutcome) (cache : Option String) :
    Nat → Nat → KeyResult
  | _, 0 => { ret := none, cache := cache, fetchCalls := 0, sleeps := 0 }
  | callIdx, fuel + 1 =>
    match endpoint callIdx with
    | .ok k => { ret := k, cache := k, fetchCalls := 1, sleeps := 0 }
    | .raise _ =>
      let r := getPublicKeyLoop endpoint cache (callIdx + 1) fuel
      { ret := r.ret, cache := r.cache,
        fetchCalls := r.fetchCalls + 1, sleeps := r.sleeps + 1 }

/-- `get_public_key`: return the cached key immediately when the cache
slot is truthy, otherwise run the bounded retry loop (10 attempts). -/
def get_public_key (endpoint : Nat → FetchOutcome) (cache : Option String) :
    KeyResult :=
  if pyTruthyStr cache then
    { ret := cache, cache := cache, fetchCalls := 0, sleeps := 0 }
  else
    getPublicKeyLoop endpoint cache 0 10

/-! ## Python values, errors, and `str.replace` -/

/-- The exceptions that flow through the mixin: `UnauthenticatedException`
(raised by the orchestrator), `jwt.InvalidTokenError` (raised by
`decode_jwt` on a missing header), and any other Python exception
(e.g. one raised inside a resolver), carried with its message. -/
inductive PyErr where
  | unauthenticated
  | invalidToken (msg : String)
  | generic (msg : String)
deriving DecidableEq, Repr

/-- The `token` argument of `validate_identity_on_token` is untyped in
the source: it is either a Python string or some non-string object (on
which `.replace` raises `AttributeError`). -/
inductive PyVal where
  | str (s : String)
  | nonstr (tag : String)
deriving DecidableEq, Repr

/-- The characters of the literal `"Bearer "` pattern. -/
def bearerChars : List Char := ['B', 'e', 'a', 'r', 'e', 'r', ' ']

/-- Python `str.replace("Bearer ", "")` on the character list: scan left
to right and drop every (non-overlapping) occurrence of the pattern.
Structural recursion on a fuel argument (instantiated with the list
length, which suffices since each step consumes at least one character
of the input). -/
def replaceBearerAux : Nat → List Char → List Char
  | _, [] => []
  | 0, l => l
  | fuel + 1, c :: rest =>
    if bearerChars.isPrefixOf (c :: rest) then
      replaceBearerAux fuel (rest.drop 6)
    else
      c :: replaceBearerAux fuel rest

/-- Python `s.replace("Bearer ", "")`: remove every occurrence of the
substring `"Bearer "` from `s`. -/
def pyReplaceBearer (s : String) : String :=
  ⟨replaceBearerAux s.data.length s.data⟩

/-- Whether `"Bearer "` occurs as a substring (at any position). -/
def hasBearerOcc : List Char → Bool
  | [] => false
  | c :: rest => bearerChars.isPrefixOf (c :: rest) || hasBearerOcc rest

/-- The `try: token = token.replace("Bearer ", "") except: logger.error(...)`
step of `validate_identity_on_token`: on a string, replace every
occurrence of `"Bearer "`; on a non-string, `.replace` raises, the bare
`except` logs and the token is left unchanged.  Returns the resulting
token and whether the failure log line was emitted. -/
def stripBearerStep : PyVal → PyVal × Bool
  | .str s => (.str (pyReplaceBearer s), false)
  | v => (v, true)

/-! ## Token resolvers and the orchestrator -/

/-- `AuthHeaderType.JWT.value`. -/
def AuthHeaderTypeJWT : String := "JWT"

/-- The options bag passed through to the resolver, opaque to the
orchestrator. -/
inductive IValidateTokenOptions where
  | mk
deriving DecidableEq, Repr

/-- A token resolver as the orchestrator sees it: a `should_handle`
predicate over the declared type and a `validate_token` function that
returns a normalized identity (modelled as a string) or raises. -/
structure Resolver where
  shouldHandle : String → Bool
  validateToken : PyVal → Option String → Option IValidateTokenOptions →
    Except PyErr String

/-- Result of one call to `validate_identity_on_token`: the value
returned or exception raised, the key cache afterwards, the number of
`fetch_public_key` calls made, the argument pair `(token, public_key)`
passed to the selected resolver's `validate_token` (`none` when no
resolver was invoked), and whether the Bearer-strip failure was logged. -/
structure ValidateResult where
  result : Except PyErr String
  cache : Option String
  fetchCalls : Nat
  resolverCall : Option (PyVal × Option String)
  stripFailLogged : Bool
deriving Repr

/-- Step (1) of `validate_identity_on_token`: the Bearer-strip attempt,
performed only when the declared type is JWT. -/
def jwtStripStage (ty : String) (token : PyVal) : PyVal × Bool :=
  if ty == AuthHeaderTypeJWT then stripBearerStep token else (token, false)

/-- `validate_identity_on_token(token, options, type)`.

Faithful to the source order: (1) if the declared type is JWT, attempt
the Bearer strip (logging, not failing, when the token is not a string);
(2) call `get_public_key` — in this model that call never raises, since
`get_public_key` catches every fetch exception internally and falls
through to an implicit `return None` on exhaustion, so the surrounding
`except: raise UnauthenticatedException()` branch is unreachable;
(3) linearly scan the resolver list for the first resolver whose
`should_handle(type)` is true, raising `UnauthenticatedException` when
none is found; (4) return `resolver.validate_token(token, public_key,
options)` with no exception handling around it. -/
def validate_identity_on_token (resolvers : List Resolver)
    (endpoint : Nat → FetchOutcome) (cache : Option String)
    (token : PyVal) (options : Option IValidateTokenOptions)
    (ty : String := AuthHeaderTypeJWT) : ValidateResult :=
  let strip := jwtStripStage ty token
  let token := strip.1
  let key := get_public_key endpoint cache
  match resolvers.find? (fun r => r.shouldHandle ty) with
  | none =>
    { result := .error .unauthenticated, cache := key.cache,
      fetchCalls := key.fetchCalls, resolverCall := none,
      stripFailLogged := strip.2 }
  | some resolver =>
    { result := resolver.validateToken token key.ret options,
      cache := key.cache, fetchCalls := key.fetchCalls,
      resolverCall := some (token, key.ret),
      stripFailLogged := strip.2 }

/-! ## The raw decode path: `decode_jwt` and `__get_jwt_data` -/

/-- The `jwt.decode(...)` invocation made by `__get_jwt_data`, recorded
as data: the token, the key positional argument (`none` when the
unverified branch passes no key), the `algorithms` allow-list, and the
effective `verify_aud` / `verify_signature` options (PyJWT defaults
`verify_signature` to true when the option is absent). -/
structure JwtDecodeCall where
  token : String
  key : Option String
  algorithms : List String
  verify_aud : Bool
  verify_signature : Bool
deriving DecidableEq, Repr

/-- `__get_jwt_data(jwt_token, verify, public_key)` (the body; the
`@retry` wrapper re-invokes it unchanged, so the call shape is the same
on every attempt): with `verify` truthy it calls
`jwt.decode(jwt_token, public_key, algorithms=['RS256'],
options={"verify_aud": False})`, otherwise
`jwt.decode(jwt_token, algorithms=['RS256'],
options={"verify_aud": False, "verify_signature": verify})`. -/
def get_jwt_data (jwt_token : String) (verify : Bool)
    (public_key : Option String) : JwtDecodeCall :=
  if verify then
    { token := jwt_token, key := public_key, algorithms := ["RS256"],
      verify_aud := false, verify_signature := true }
  else
    { token := jwt_token, key := none, algorithms := ["RS256"],
      verify_aud := false, verify_signature := verify }

/-- Result of `decode_jwt`: the decode call it issued (or the exception
it raised), the key cache afterwards, and the number of
`fetch_public_key` network calls made. -/
structure DecodeJwtResult where
  result : Except PyErr JwtDecodeCall
  cache : Option String
  fetchCalls : Nat
deriving Repr

/-- `decode_jwt(authorization_header, verify)`: raise
`InvalidTokenError('Authorization headers is missing')` when the header
is falsy (`None` or empty), otherwise strip `"Bearer "` occurrences,
obtain the public key, and decode. -/
def decode_jwt (endpoint : Nat → FetchOutcome) (cache : Option String)
    (authorization_header : Option String) (verify : Bool := true) :
    DecodeJwtResult :=
  if !pyTruthyStr authorization_header then
    { result := .error (.invalidToken "Authorization headers is missing"),
      cache := cache, fetchCalls := 0 }
  else
    let jwt_token := pyReplaceBearer (authorization_header.getD "")
    let key := get_public_key endpoint cache
    { result := .ok (get_jwt_data jwt_token verify key.ret),
      cache := key.cache, fetchCalls := key.fetchCalls }

/-! ## Module-load parsing of the decode-retry tunables

`jwt_decode_retry = os.environ.get('FRONTEGG_JWT_DECODE_RETRY') or '1'`
`jwt_decode_retry = int(jwt_decode_retry)`
`jwt_decode_retry_delay = os.environ.get('FRONTEGG_JWT_DECODE_RETRY_DELAY_MS') or '0'`
`jwt_decode_retry_delay = float(jwt_decode_retry_delay) / 1000`

`int()` / `float()` are modelled on the decimal fragment of Python's
grammar (optional surrounding whitespace, optional sign, digits, and for
`float` an optional fractional part); any string outside that fragment
parses to `none`, i.e. raises `ValueError` at module load. -/

/-- Python `str.strip()` (whitespace removal at both ends), applied by
`int()` / `float()` to their string argument. -/
def pyStrip (l : List Char) : List Char :=
  ((l.dropWhile Char.isWhitespace).reverse.dropWhile Char.isWhitespace).reverse

/-- Nonempty all-decimal-digit character list. -/
def isDigitList (l : List Char) : Bool :=
  !l.isEmpty && l.all Char.isDigit

/-- Value of a decimal digit list. -/
def digitsVal (l : List Char) : Nat :=
  l.foldl (fun a c => a * 10 + (c.toNat - 48)) 0

/-- Unsigned part of Python `int(s)`. -/
def pyIntUnsigned : List Char → Option Nat
  | l => if isDigitList l then some (digitsVal l) else none

/-- Python `int(s)` on the decimal fragment: strip whitespace, optional
sign, digits; `none` models `ValueError`. -/
def pyInt : String → Option Int
  | s =>
    match pyStrip s.data with
    | '+' :: rest => (pyIntUnsigned rest).map (fun n => (n : Int))
    | '-' :: rest => (pyIntUnsigned rest).map (fun n => -(n : Int))
    | rest => (pyIntUnsigned rest).map (fun n => (n : Int))

/-- Unsigned part of Python `float(s)`: `digits`, `digits.digits`,
`digits.` or `.digits`. -/
def pyFloatUnsigned (l : List Char) : Option ℚ :=
  let intPart := l.takeWhile (fun c => c != '.')
  match l.dropWhile (fun c => c != '.') with
  | [] => if isDigitList intPart then some (digitsVal intPart) else none
  | _ :: fracPart =>
    if intPart.all Char.isDigit && fracPart.all Char.isDigit &&
        (!intPart.isEmpty || !fracPart.isEmpty) then
      some ((digitsVal intPart : ℚ) + (digitsVal fracPart : ℚ) / 10 ^ fracPart.length)
    else none

/-- Python `float(s)` on the decimal fragment; `none` models
`ValueError`. -/
def pyFloat : String → Option ℚ
  | s =>
    match pyStrip s.data with
    | '+' :: rest => pyFloatUnsigned rest
    | '-' :: rest => (pyFloatUnsigned rest).map Neg.neg
    | rest => pyFloatUnsigned rest

/-- `os.environ.get(name) or dflt`: an unset variable gives `None` and
an empty string is falsy, so both fall back to the default literal. -/
def envOrDefault (env : Option String) (dflt : String) : String :=
  match env with
  | none => dflt
  | some v => if v = "" then dflt else v

/-- Module-load computation of `jwt_decode_retry`: `.error` models the
`ValueError` that `int()` raises at import time. -/
def jwt_decode_retry (env : Option String) : Except String Int :=
  match pyInt (envOrDefault env "1") with
  | some n => .ok n
  | none => .error "ValueError"

/-- Module-load computation of `jwt_decode_retry_delay`
(`float(...) / 1000`, milliseconds to seconds): `.error` models the
`ValueError` that `float()` raises at import time. -/
def jwt_decode_retry_delay (env : Option String) : Except String ℚ :=
  match pyFloat (envOrDefault env "0") with
  | some q => .ok (q / 1000)
  | none => .error "ValueError"

/-- Decidable equality on `Except`, so concrete runs of the model can be
checked by evaluation. -/
instance {ε α : Type} [DecidableEq ε] [DecidableEq α] :
    DecidableEq (Except ε α) := fun x y =>
  match x, y with
  | .ok a, .ok b => decidable_of_iff (a = b) (by simp)
  | .error a, .error b => decidable_of_iff (a = b) (by simp)
  | .ok _, .error _ => isFalse (by simp)
  | .error _, .ok _ => isFalse (by simp)

/-! ## Concrete stub resolver used by witnesses and counterexamples -/

/-- A resolver that claims exactly the JWT declared type and returns a
fixed outcome, standing in for a registered token resolver. -/
def jwtStubResolver (out : Except PyErr String) : Resolver :=
  { shouldHandle := fun t => t == AuthHeaderTypeJWT
    validateToken := fun _ _ _ => out }

/-! ## Lemmas about the key-fetch retry loop -/

/-- Against an endpoint whose every call raises, the retry loop runs its
full fuel: one fetch and one sleep per iteration, cache untouched,
`None` returned. -/
theorem getPublicKeyLoop_allFail (endpoint : Nat → FetchOutcome)
    (cache : Option String)
    (hfail : ∀ n, ∃ m, endpoint n = FetchOutcome.raise m) :
    ∀ fuel start, getPublicKeyLoop endpoint cache start fuel =
      { ret := none, cache := cache, fetchCalls := fuel, sleeps := fuel }
  | 0, _ => rfl
  | fuel + 1, start => by
    obtain ⟨m, hm⟩ := hfail start
    simp [getPublicKeyLoop, hm,
      getPublicKeyLoop_allFail endpoint cache hfail fuel (start + 1)]

/-- If the endpoint raises on its first `N` calls (counting from
`start`) and succeeds on the next one, and the loop has fuel for it,
the loop returns the fetched value, assigns it to the cache, and has
made `N + 1` fetches with `N` sleeps in between. -/
theorem getPublicKeyLoop_succAt (endpoint : Nat → FetchOutcome)
    (cache k : Option String) :
    ∀ (N fuel start : Nat), N < fuel →
      (∀ i, i < N → ∃ m, endpoint (start + i) = FetchOutcome.raise m) →
      endpoint (start + N) = FetchOutcome.ok k →
      getPublicKeyLoop endpoint cache start fuel =
        { ret := k, cache := k, fetchCalls := N + 1, sleeps := N }
  | _, 0, _, hlt, _, _ => absurd hlt (Nat.not_lt_zero _)
  | 0, fuel + 1, start, _, _, hok => by
    rw [Nat.add_zero] at hok
    simp [getPublicKeyLoop, hok]
  | N + 1, fuel + 1, start, hlt, hfail, hok => by
    obtain ⟨m, hm⟩ := hfail 0 (Nat.succ_pos N)
    rw [Nat.add_zero] at hm
    have ih := getPublicKeyLoop_succAt endpoint cache k N fuel (start + 1)
      (Nat.lt_of_succ_lt_succ hlt)
      (fun i hi => by
        have h := hfail (i + 1) (Nat.succ_lt_succ hi)
        rwa [show start + (i + 1) = start + 1 + i by omega] at h)
      (by rwa [show start + 1 + N = start + (N + 1) by omega])
    simp [getPublicKeyLoop, hm, ih]

/-- The loop never fetches more often than its fuel allows. -/
theorem getPublicKeyLoop_fetchCalls_le (endpoint : Nat → FetchOutcome)
    (cache : Option String) :
    ∀ fuel start,
      (getPublicKeyLoop endpoint cache start fuel).fetchCalls ≤ fuel
  | 0, _ => Nat.le_refl 0
  | fuel + 1, start => by
    cases h : endpoint start with
    | ok k => simp [getPublicKeyLoop, h]
    | raise m =>
      have ih := getPublicKeyLoop_fetchCalls_le endpoint cache fuel (start + 1)
      simp [getPublicKeyLoop, h]
      omega

/-- With positive fuel the loop always makes at least one fetch call. -/
theorem getPublicKeyLoop_fetchCalls_pos (endpoint : Nat → FetchOutcome)
    (cache : Option String) (fuel start : Nat) (hfuel : 0 < fuel) :
    1 ≤ (getPublicKeyLoop endpoint cache start fuel).fetchCalls := by
  obtain ⟨f, rfl⟩ := Nat.exists_eq_succ_of_ne_zero (Nat.pos_iff_ne_zero.mp hfuel)
  cases h : endpoint start with
  | ok k => simp [getPublicKeyLoop, h]
  | raise m => simp [getPublicKeyLoop, h]

/-- A removal pass never invents an occurrence-free change: when the
pattern does not occur at all the character list is returned intact. -/
theorem replaceBearerAux_noOcc :
    ∀ fuel l, hasBearerOcc l = false → replaceBearerAux fuel l = l := by
  intro fuel
  induction fuel with
  | zero => intro l _; cases l <;> rfl
  | succ n ih =>
    intro l h
    cases l with
    | nil => rfl
    | cons c rest =>
      rw [hasBearerOcc, Bool.or_eq_false_iff] at h
      simp [replaceBearerAux, h.1, ih rest h.2]

/-- `s.replace("Bearer ", "")` leaves a string with no occurrence of
`"Bearer "` unchanged. -/
theorem pyReplaceBearer_noOcc (s : String) (h : hasBearerOcc s.data = false) :
    pyReplaceBearer s = s := by
  cases s with
  | mk l =>
    show String.mk (replaceBearerAux l.length l) = String.mk l
    rw [replaceBearerAux_noOcc l.length l h]

/-! ## Claim theorems -/

/-- Claim C4: once a (truthy) public key has been fetched it is cached;
every later `get_public_key` call returns the cached value with zero
further fetch calls, whatever the endpoint would do; the cache is never
overwritten while every fetch fails; and in the N-failures-then-success
scenario (N < 10) `get_public_key` returns the fetched key, after which
the next call makes no network call. -/
theorem C4_key_cache_reuse (endpoint ep2 : Nat → FetchOutcome)
    (N : Nat) (k : String) (hN : N < 10) (hk : k ≠ "")
    (hfail : ∀ i, i < N → ∃ m, endpoint i = FetchOutcome.raise m)
    (hok : endpoint N = FetchOutcome.ok (some k)) :
    get_public_key endpoint none =
      { ret := some k, cache := some k, fetchCalls := N + 1, sleeps := N } ∧
    get_public_key ep2 (some k) =
      { ret := some k, cache := some k, fetchCalls := 0, sleeps := 0 } ∧
    (∀ (ep3 : Nat → FetchOutcome) (c : Option String),
      (∀ n, ∃ m, ep3 n = FetchOutcome.raise m) →
        (get_public_key ep3 c).cache = c) := by
  refine ⟨?_, ?_, ?_⟩
  · show getPublicKeyLoop endpoint none 0 10 = _
    exact getPublicKeyLoop_succAt endpoint none (some k) N 10 0 hN
      (fun i hi => by simpa using hfail i hi) (by simpa using hok)
  · have : pyTruthyStr (some k) = true := by
      simp [pyTruthyStr]
      exact hk
    simp [get_public_key, this]
  · intro ep3 c h3
    by_cases hc : pyTruthyStr c = true
    · simp [get_public_key, hc]
    · simp only [get_public_key, hc, Bool.false_eq_true, if_false,
        getPublicKeyLoop_allFail ep3 c h3 10 0]

/-- Closed witness for C4 at a concrete endpoint failing 3 times then
returning the key. -/
theorem C4_key_cache_reuse_witness :
    get_public_key
        (fun n => if n < 3 then FetchOutcome.raise "e"
                  else FetchOutcome.ok (some "K")) none =
      { ret := some "K", cache := some "K", fetchCalls := 4, sleeps := 3 } ∧
    get_public_key (fun _ => FetchOutcome.raise "boom") (some "K") =
      { ret := some "K", cache := some "K", fetchCalls := 0, sleeps := 0 } :=
  have h := C4_key_cache_reuse
    (fun n => if n < 3 then FetchOutcome.raise "e"
              else FetchOutcome.ok (some "K"))
    (fun _ => FetchOutcome.raise "boom") 3 "K" (by omega) (by decide)
    (fun i hi => ⟨"e", by simp [hi]⟩) (by norm_num)
  ⟨h.1, h.2.1⟩

/-- Claim C5: with no cached key, `get_public_key` retries on any fetch
exception with one sleep per failed attempt and makes at most 10 fetch
attempts: against an always-failing endpoint it makes exactly 10 calls
(never an 11th) and 10 sleeps, and in general no run of `get_public_key`
ever exceeds 10 fetch calls. -/
theorem C5_key_fetch_retry_bounded (endpoint : Nat → FetchOutcome)
    (cache : Option String)
    (hfail : ∀ n, ∃ m, endpoint n = FetchOutcome.raise m)
    (hcache : pyTruthyStr cache = false) :
    get_public_key endpoint cache =
      { ret := none, cache := cache, fetchCalls := 10, sleeps := 10 } ∧
    ∀ (ep : Nat → FetchOutcome) (c : Option String),
      (get_public_key ep c).fetchCalls ≤ 10 := by
  constructor
  · simp only [get_public_key, hcache, Bool.false_eq_true, if_false]
    exact getPublicKeyLoop_allFail endpoint cache hfail 10 0
  · intro ep c
    by_cases hc : pyTruthyStr c = true
    · simp [get_public_key, hc]
    · simp only [get_public_key, hc, Bool.false_eq_true, if_false]
      exact getPublicKeyLoop_fetchCalls_le ep c 10 0

/-- Closed witness for C5 at an always-failing endpoint. -/
theorem C5_key_fetch_retry_bounded_witness :
    get_public_key (fun _ => FetchOutcome.raise "e") none =
      { ret := none, cache := none, fetchCalls := 10, sleeps := 10 } :=
  (C5_key_fetch_retry_bounded (fun _ => FetchOutcome.raise "e") none
    (fun _ => ⟨"e", rfl⟩) rfl).1

/-- Claim C10: a 2xx response whose body lacks the `publicKey` field
makes `fetch_public_key` return `None` without raising; `get_public_key`
then treats the attempt as a success and returns `None` after exactly
one fetch and no retry; the cache slot holds `None` (still falsy), so
the next `get_public_key` call fetches again (at least one network
call), whatever the endpoint. -/
theorem C10_missing_publicKey_field (resp : HttpResponse)
    (endpoint : Nat → FetchOutcome)
    (hstatus : resp.statusOk = true) (hfield : resp.publicKeyField = none)
    (hz : endpoint 0 = fetch_public_key resp) :
    fetch_public_key resp = FetchOutcome.ok none ∧
    get_public_key endpoint none =
      { ret := none, cache := none, fetchCalls := 1, sleeps := 0 } ∧
    ∀ ep2 : Nat → FetchOutcome, 1 ≤ (get_public_key ep2 none).fetchCalls := by
  have hfetch : fetch_public_key resp = FetchOutcome.ok none := by
    simp [fetch_public_key, hstatus, hfield]
  refine ⟨hfetch, ?_, ?_⟩
  · rw [hfetch] at hz
    show getPublicKeyLoop endpoint none 0 10 = _
    simp [getPublicKeyLoop, hz]
  · intro ep2
    show 1 ≤ (getPublicKeyLoop ep2 none 0 10).fetchCalls
    exact getPublicKeyLoop_fetchCalls_pos ep2 none 10 0 (by omega)

/-- Closed witness for C10 at a concrete field-less 2xx response. -/
theorem C10_missing_publicKey_field_witness :
    fetch_public_key { statusOk := true, publicKeyField := none } =
      FetchOutcome.ok none ∧
    get_public_key (fun _ => FetchOutcome.ok none) none =
      { ret := none, cache := none, fetchCalls := 1, sleeps := 0 } :=
  have h := C10_missing_publicKey_field
    { statusOk := true, publicKeyField := none }
    (fun _ => FetchOutcome.ok none) rfl rfl rfl
  ⟨h.1, h.2.1⟩

/-- Claim C1, counterexample: with an endpoint whose every fetch raises
and no cached key, `validate_identity_on_token` does NOT fail with
`UnauthenticatedException` — `get_public_key` swallows the failures and
returns `None` — and the JWT resolver's `validate_token` IS invoked
(with a `None` public key), here returning its identity successfully. -/
theorem C1_counterexample_resolver_runs_on_key_exhaustion :
    (validate_identity_on_token [jwtStubResolver (.ok "entity0")]
        (fun _ => FetchOutcome.raise "e") none (.str "Bearer tok") none
        "JWT").result = .ok "entity0" ∧
    (validate_identity_on_token [jwtStubResolver (.ok "entity0")]
        (fun _ => FetchOutcome.raise "e") none (.str "Bearer tok") none
        "JWT").resolverCall = some (.str "tok", none) ∧
    (Except.ok "entity0" : Except PyErr String) ≠
      .error PyErr.unauthenticated := by
  refine ⟨rfl, rfl, ?_⟩
  intro h
  exact Except.noConfusion h

/-- Claim C1 as amended: when key retrieval exhausts its 10 retries,
`get_public_key` returns `None` without raising, so
`validate_identity_on_token` does not fail at the key step: after the
10 fetch attempts the selected resolver's `validate_token` is invoked
with a `None` public key, and the call's outcome is whatever the
resolver returns. -/
theorem C1_amended_key_exhaustion_passes_none (resolvers : List Resolver)
    (endpoint : Nat → FetchOutcome) (cache : Option String)
    (token : PyVal) (options : Option IValidateTokenOptions)
    (ty : String) (r : Resolver)
    (hfail : ∀ n, ∃ m, endpoint n = FetchOutcome.raise m)
    (hcache : pyTruthyStr cache = false)
    (hfind : resolvers.find? (fun q => q.shouldHandle ty) = some r) :
    (validate_identity_on_token resolvers endpoint cache token options
        ty).result = r.validateToken (jwtStripStage ty token).1 none options ∧
    (validate_identity_on_token resolvers endpoint cache token options
        ty).resolverCall = some ((jwtStripStage ty token).1, none) ∧
    (validate_identity_on_token resolvers endpoint cache token options
        ty).fetchCalls = 10 := by
  have hkey : get_public_key endpoint cache =
      { ret := none, cache := cache, fetchCalls := 10, sleeps := 10 } := by
    simp only [get_public_key, hcache, Bool.false_eq_true, if_false]
    exact getPublicKeyLoop_allFail endpoint cache hfail 10 0
  refine ⟨?_, ?_, ?_⟩ <;>
    simp [validate_identity_on_token, hfind, hkey]

/-- Closed witness for the amended C1. -/
theorem C1_amended_key_exhaustion_passes_none_witness :
    (validate_identity_on_token [jwtStubResolver (.error (.generic "sig"))]
        (fun _ => FetchOutcome.raise "down") none (.str "Bearer t") none
        "JWT").result = .error (.generic "sig") ∧
    (validate_identity_on_token [jwtStubResolver (.error (.generic "sig"))]
        (fun _ => FetchOutcome.raise "down") none (.str "Bearer t") none
        "JWT").fetchCalls = 10 :=
  have h := C1_amended_key_exhaustion_passes_none
    [jwtStubResolver (.error (.generic "sig"))]
    (fun _ => FetchOutcome.raise "down") none (.str "Bearer t") none
    "JWT" (jwtStubResolver (.error (.generic "sig")))
    (fun _ => ⟨"down", rfl⟩) rfl rfl
  ⟨h.1, h.2.2⟩

/-- Claim C2, counterexample: a resolver raising a generic error makes
`validate_identity_on_token` raise that same generic error — there is no
try/except around the `validate_token` call, so the resolver's failure
type escapes the orchestrator instead of being normalized to
`UnauthenticatedException`. -/
theorem C2_counterexample_resolver_error_escapes :
    (validate_identity_on_token [jwtStubResolver (.error (.generic "boom"))]
        (fun _ => FetchOutcome.raise "e") (some "KEY") (.str "t") none
        "JWT").result = .error (.generic "boom") ∧
    PyErr.generic "boom" ≠ PyErr.unauthenticated := by
  exact ⟨rfl, by decide⟩

/-- Claim C2 as amended: the orchestrator passes the selected resolver's
outcome through unchanged — on success the resolver's identity is
returned as-is, and on failure the resolver's own exception (not
`UnauthenticatedException`) propagates to the caller. -/
theorem C2_amended_resolver_outcome_propagates (resolvers : List Resolver)
    (endpoint : Nat → FetchOutcome) (cache : Option String)
    (token : PyVal) (options : Option IValidateTokenOptions)
    (ty : String) (r : Resolver)
    (hfind : resolvers.find? (fun q => q.shouldHandle ty) = some r) :
    (validate_identity_on_token resolvers endpoint cache token options
        ty).result = r.validateToken (jwtStripStage ty token).1
          (get_public_key endpoint cache).ret options := by
  simp [validate_identity_on_token, hfind]

/-- Closed witness for the amended C2. -/
theorem C2_amended_resolver_outcome_propagates_witness :
    (validate_identity_on_token [jwtStubResolver (.ok "id1")]
        (fun _ => FetchOutcome.ok (some "K")) none (.str "Bearer t") none
        "JWT").result = .ok "id1" :=
  (C2_amended_resolver_outcome_propagates [jwtStubResolver (.ok "id1")]
    (fun _ => FetchOutcome.ok (some "K")) none (.str "Bearer t") none
    "JWT" (jwtStubResolver (.ok "id1")) rfl).trans rfl

/-- Claim C3, counterexample: with a declared type no resolver claims
and an empty cache, the call does fail with `UnauthenticatedException`,
but only AFTER the public-key step has made a network fetch — the key
is obtained before resolver selection, so "performs no network call"
fails. -/
theorem C3_counterexample_fetch_before_resolver_scan :
    (validate_identity_on_token [jwtStubResolver (.ok "id0")]
        (fun _ => FetchOutcome.ok (some "K")) none (.str "t") none
        "AccessToken").result = .error PyErr.unauthenticated ∧
    (validate_identity_on_token [jwtStubResolver (.ok "id0")]
        (fun _ => FetchOutcome.ok (some "K")) none (.str "t") none
        "AccessToken").fetchCalls = 1 ∧ (1 : Nat) ≠ 0 := by
  exact ⟨rfl, rfl, by decide⟩

/-- Claim C3 as amended: when no registered resolver claims the declared
type, `validate_identity_on_token` fails with
`UnauthenticatedException` and invokes no resolver, but the key step
runs first: no network call happens only when a key is cached, and with
an empty cache at least one fetch is made before the failure. -/
theorem C3_amended_no_resolver_fails_after_key_step
    (resolvers : List Resolver) (endpoint : Nat → FetchOutcome)
    (cache : Option String) (token : PyVal)
    (options : Option IValidateTokenOptions) (ty : String)
    (hfind : resolvers.find? (fun q => q.shouldHandle ty) = none) :
    (validate_identity_on_token resolvers endpoint cache token options
        ty).result = .error PyErr.unauthenticated ∧
    (validate_identity_on_token resolvers endpoint cache token options
        ty).resolverCall = none ∧
    (pyTruthyStr cache = true →
      (validate_identity_on_token resolvers endpoint cache token options
        ty).fetchCalls = 0) ∧
    (pyTruthyStr cache = false →
      1 ≤ (validate_identity_on_token resolvers endpoint cache token
        options ty).fetchCalls) := by
  refine ⟨by simp [validate_identity_on_token, hfind],
    by simp [validate_identity_on_token, hfind], ?_, ?_⟩
  · intro hc
    simp [validate_identity_on_token, hfind, get_public_key, hc]
  · intro hc
    simp only [validate_identity_on_token, hfind]
    show 1 ≤ (get_public_key endpoint cache).fetchCalls
    simp only [get_public_key, hc, Bool.false_eq_true, if_false]
    exact getPublicKeyLoop_fetchCalls_pos endpoint cache 10 0 (by omega)

/-- Closed witness for the amended C3, in the cached-key case where the
failure indeed makes no network call. -/
theorem C3_amended_no_resolver_fails_after_key_step_witness :
    (validate_identity_on_token [jwtStubResolver (.ok "id0")]
        (fun _ => FetchOutcome.raise "e") (some "K") (.str "t") none
        "AccessToken").result = .error PyErr.unauthenticated ∧
    (validate_identity_on_token [jwtStubResolver (.ok "id0")]
        (fun _ => FetchOutcome.raise "e") (some "K") (.str "t") none
        "AccessToken").fetchCalls = 0 :=
  have h := C3_amended_no_resolver_fails_after_key_step
    [jwtStubResolver (.ok "id0")] (fun _ => FetchOutcome.raise "e")
    (some "K") (.str "t") none "AccessToken" rfl
  ⟨h.1, h.2.2.1 rfl⟩

/-- Claim C6: for every token, public key and verify flag, the
`jwt.decode` invocation issued by `__get_jwt_data` carries the fixed
single-algorithm allow-list `['RS256']` and has audience verification
disabled, in the verify and the no-verify branch alike. -/
theorem C6_fixed_algorithms_no_aud (t : String) (v : Bool)
    (k : Option String) :
    (get_jwt_data t v k).algorithms = ["RS256"] ∧
    (get_jwt_data t v k).verify_aud = false := by
  cases v <;> simp [get_jwt_data]

/-- Claim C7: a falsy authorization header (`None` or the empty string)
makes `decode_jwt` raise the header-missing `InvalidTokenError` with
zero `fetch_public_key` calls, for either value of the verify flag. -/
theorem C7_missing_header_fails_before_fetch
    (endpoint : Nat → FetchOutcome) (cache : Option String)
    (h : Option String) (verify : Bool) (hh : h = none ∨ h = some "") :
    (decode_jwt endpoint cache h verify).result =
      .error (.invalidToken "Authorization headers is missing") ∧
    (decode_jwt endpoint cache h verify).fetchCalls = 0 := by
  rcases hh with rfl | rfl <;> exact ⟨rfl, rfl⟩

/-- Closed witness for C7, covering both falsy headers and both verify
flags. -/
theorem C7_missing_header_fails_before_fetch_witness :
    (decode_jwt (fun _ => FetchOutcome.ok (some "K")) none none
        true).result =
      .error (.invalidToken "Authorization headers is missing") ∧
    (decode_jwt (fun _ => FetchOutcome.ok (some "K")) none (some "")
        false).fetchCalls = 0 :=
  ⟨(C7_missing_header_fails_before_fetch
      (fun _ => FetchOutcome.ok (some "K")) none none true (Or.inl rfl)).1,
   (C7_missing_header_fails_before_fetch
      (fun _ => FetchOutcome.ok (some "K")) none (some "") false
      (Or.inr rfl)).2⟩

/-- Claim C8, counterexample: `"abcBearer def"` does not start with
`"Bearer "`, yet the resolver receives `"abcdef"` — the strip step is a
Python `str.replace` and removes the inner occurrence too, so a token
without the prefix is not left unchanged. -/
theorem C8_counterexample_inner_occurrence_removed :
    bearerChars.isPrefixOf "abcBearer def".data = false ∧
    (validate_identity_on_token [jwtStubResolver (.ok "e0")]
        (fun _ => FetchOutcome.ok (some "K")) none (.str "abcBearer def")
        none "JWT").resolverCall = some (.str "abcdef", some "K") ∧
    PyVal.str "abcdef" ≠ PyVal.str "abcBearer def" := by
  exact ⟨by decide, rfl, by decide⟩

/-- Claim C8 as amended: for JWT-typed calls the strip step removes
EVERY occurrence of the substring `"Bearer "` from a string token
(Python `str.replace`), which in particular leaves occurrence-free
tokens unchanged but also alters tokens containing `"Bearer "` away
from the front; a non-string token is logged and passed through to the
resolver unchanged rather than failing. -/
theorem C8_amended_replace_all_occurrences (resolvers : List Resolver)
    (endpoint : Nat → FetchOutcome) (cache : Option String)
    (options : Option IValidateTokenOptions) (r : Resolver)
    (hfind : resolvers.find? (fun q => q.shouldHandle AuthHeaderTypeJWT)
      = some r) :
    (∀ s : String,
      (validate_identity_on_token resolvers endpoint cache (.str s)
          options AuthHeaderTypeJWT).resolverCall =
        some (.str (pyReplaceBearer s), (get_public_key endpoint cache).ret) ∧
      (validate_identity_on_token resolvers endpoint cache (.str s)
          options AuthHeaderTypeJWT).stripFailLogged = false) ∧
    (∀ s : String, hasBearerOcc s.data = false → pyReplaceBearer s = s) ∧
    (∀ tag : String,
      (validate_identity_on_token resolvers endpoint cache (.nonstr tag)
          options AuthHeaderTypeJWT).resolverCall =
        some (.nonstr tag, (get_public_key endpoint cache).ret) ∧
      (validate_identity_on_token resolvers endpoint cache (.nonstr tag)
          options AuthHeaderTypeJWT).stripFailLogged = true) := by
  refine ⟨?_, fun s => pyReplaceBearer_noOcc s, ?_⟩
  · intro s
    constructor <;>
      simp [validate_identity_on_token, hfind, jwtStripStage,
        stripBearerStep]
  · intro tag
    constructor <;>
      simp [validate_identity_on_token, hfind, jwtStripStage,
        stripBearerStep]

/-- Closed witness for the amended C8: prefix stripped, occurrence-free
token untouched, non-string token tolerated with a log. -/
theorem C8_amended_replace_all_occurrences_witness :
    (validate_identity_on_token [jwtStubResolver (.ok "e0")]
        (fun _ => FetchOutcome.ok (some "K")) none (.str "Bearer tok")
        none AuthHeaderTypeJWT).resolverCall =
      some (.str "tok", some "K") ∧
    pyReplaceBearer "xyz" = "xyz" ∧
    (validate_identity_on_token [jwtStubResolver (.ok "e0")]
        (fun _ => FetchOutcome.ok (some "K")) none (.nonstr "obj")
        none AuthHeaderTypeJWT).stripFailLogged = true :=
  have h := C8_amended_replace_all_occurrences [jwtStubResolver (.ok "e0")]
    (fun _ => FetchOutcome.ok (some "K")) none none
    (jwtStubResolver (.ok "e0")) rfl
  ⟨((h.1 "Bearer tok").1).trans rfl, h.2.1 "xyz" (by decide),
    (h.2.2 "obj").2⟩

/-- Claim C9, counterexample: the empty string is a non-numeric value
(`int('')` and `float('')` raise `ValueError` in Python, and indeed
`pyInt`/`pyFloat` reject it), yet an empty-string environment value
does NOT fail fast at module load — `os.environ.get(...) or '1'` /
`or '0'` silently replaces it with the default before any parse, so the
tunables come out as 1 and 0 instead of raising. -/
theorem C9_counterexample_empty_string_silently_defaults :
    pyInt "" = none ∧
    pyFloat "" = none ∧
    jwt_decode_retry (some "") = .ok 1 ∧
    jwt_decode_retry_delay (some "") = .ok 0 ∧
    (Except.ok 1 : Except String Int) ≠ .error "ValueError" := by
  refine ⟨by decide, by decide, by decide, ?_, by decide⟩
  have h0 : pyFloat "0" = some 0 := by decide
  simp [jwt_decode_retry_delay, envOrDefault, h0]

/-- Claim C9 as amended: the decode-retry tunables default to 1 attempt
and 0 delay, the delay being the parsed millisecond value divided by
1000; an unset or empty-string environment value silently falls back to
the default before parsing (Python `or '1'` / `or '0'` truthiness),
and every other (nonempty) non-numeric value makes the module-load
parse raise (`ValueError`) rather than silently default. -/
theorem C9_amended_decode_tunables_parse :
    jwt_decode_retry none = .ok 1 ∧
    jwt_decode_retry_delay none = .ok 0 ∧
    jwt_decode_retry (some "") = .ok 1 ∧
    jwt_decode_retry_delay (some "") = .ok 0 ∧
    (∀ (v : String) (q : ℚ), v ≠ "" → pyFloat v = some q →
      jwt_decode_retry_delay (some v) = .ok (q / 1000)) ∧
    (∀ v : String, v ≠ "" → pyInt v = none →
      jwt_decode_retry (some v) = .error "ValueError") ∧
    (∀ v : String, v ≠ "" → pyFloat v = none →
      jwt_decode_retry_delay (some v) = .error "ValueError") := by
  have h0 : pyFloat "0" = some 0 := by decide
  refine ⟨by decide, ?_, by decide, ?_, ?_, ?_, ?_⟩
  · simp [jwt_decode_retry_delay, envOrDefault, h0]
  · simp [jwt_decode_retry_delay, envOrDefault, h0]
  · intro v q hv hq
    simp [jwt_decode_retry_delay, envOrDefault, hv, hq]
  · intro v hv hp
    simp [jwt_decode_retry, envOrDefault, hv, hp]
  · intro v hv hp
    simp [jwt_decode_retry_delay, envOrDefault, hv, hp]

/-- Closed witness for the amended C9: `int('abc')` and `float('xyz')`
raise at module load, and a 250 ms delay parses to a quarter time
unit. -/
theorem C9_amended_decode_tunables_parse_witness :
    jwt_decode_retry (some "abc") = .error "ValueError" ∧
    jwt_decode_retry_delay (some "xyz") = .error "ValueError" ∧
    jwt_decode_retry_delay (some "250") = .ok (1 / 4 : ℚ) := by
  refine
    ⟨C9_amended_decode_tunables_parse.2.2.2.2.2.1 "abc"
      (by decide) (by decide),
    C9_amended_decode_tunables_parse.2.2.2.2.2.2 "xyz"
      (by decide) (by decide), ?_⟩
  have h := C9_amended_decode_tunables_parse.2.2.2.2.1 "250" 250
    (by decide) (by decide)
  rw [h]
  norm_num

end Frontegg
